import Mathlib

/-!
Shallow embedding of `poke_profiler_app.py` (Poké-Profiler 2.0).

The app loads a catalog CSV (`pokemon_data.csv`), seeds an SQLite table
`pokemon_profiles` from it when the table is empty, trains a one-hot-encoded
random-forest classifier on the table once it holds at least 20 rows, and on
quiz submission predicts a partner name, optionally replaces it by a random
legendary/mythical catalog entry (the "destiny" override), draws a 1-in-100
shiny roll for the displayed image, and appends user-confirmed feedback rows
back into `pokemon_profiles`.

Randomness (`random.randint`, `DataFrame.sample`) is modelled by an explicit
entropy stream `RandState`: each call consumes one stream value at the current
position.  The random-forest decision function itself is opaque (an external
library artifact); it is modelled as an arbitrary function `choose` selecting
among the class labels seen at fit time, which is exactly the guarantee
`RandomForestClassifier.predict` provides (its output is one of `classes_`).
-/

/-- One row of `pokemon_data.csv` (the catalog), as consumed by the app:
`POKEMON_INFO` keys on `pokemon_name`; `init_db` seeds the profile table from
the answer columns; the override pool filters on `is_legendary`/`is_mythical`;
display uses `img_url` / `shiny_img_url`. -/
structure CatalogEntry where
  pokemon_name : String
  environment : String
  battle_style : String
  core_strength : String
  personality : String
  type1 : String
  hp : Nat
  attack : Nat
  defense : Nat
  pokedex_entry : String
  img_url : String
  shiny_img_url : String
  is_legendary : Bool
  is_mythical : Bool
  deriving DecidableEq

/-- One row of the `pokemon_profiles` table (also the shape of a persisted
feedback record: quiz answers plus the confirmed outcome name). -/
structure ProfileRow where
  environment : String
  battle_style : String
  core_strength : String
  personality : String
  pokemon_name : String
  deriving DecidableEq

/-- The quiz answers collected by the form (the `input_data` row). -/
structure QuizAnswers where
  environment : String
  battle_style : String
  core_strength : String
  personality : String
  deriving DecidableEq

/-- Projection used by the seeding step of `init_db`:
`initial_df[['environment','battle_style','core_strength','personality','pokemon_name']]`. -/
def toProfileRow (e : CatalogEntry) : ProfileRow :=
  { environment := e.environment, battle_style := e.battle_style,
    core_strength := e.core_strength, personality := e.personality,
    pokemon_name := e.pokemon_name }

/-- `init_db`: create the table if needed, then seed it from the catalog only
when `SELECT COUNT(*)` is zero and the catalog is non-empty (source lines
28-40).  The table is modelled as the list of its rows in insertion order. -/
def init_db (initial_df : List CatalogEntry) (db : List ProfileRow) : List ProfileRow :=
  if db.length = 0 ∧ initial_df ≠ [] then db ++ initial_df.map toProfileRow else db

/-- The fitted `OneHotEncoder`: one category list per feature column, in the
order `['environment', 'battle_style', 'core_strength', 'personality']`. -/
structure Encoder where
  cats_environment : List String
  cats_battle_style : List String
  cats_core_strength : List String
  cats_personality : List String
  deriving DecidableEq

/-- One-hot encoding of a single categorical value against a fitted category
list.  With `handle_unknown='ignore'`, a value outside the list yields all
zeros instead of raising. -/
def oneHot (cats : List String) (v : String) : List Nat :=
  cats.map (fun c => if c = v then 1 else 0)

/-- `encoder.transform` on one answer row: concatenation of the per-column
indicator blocks.  (The source's subsequent
`reindex(columns=trained_columns, fill_value=0)` is the identity here, since
the same fitted encoder produced `trained_columns`.) -/
def encode (enc : Encoder) (a : QuizAnswers) : List Nat :=
  oneHot enc.cats_environment a.environment ++ oneHot enc.cats_battle_style a.battle_style
    ++ oneHot enc.cats_core_strength a.core_strength ++ oneHot enc.cats_personality a.personality

/-- `OneHotEncoder.fit` on the profile table: the categories of each feature
column are the distinct values occurring in it. -/
def fitEncoder (profiles : List ProfileRow) : Encoder :=
  { cats_environment := (profiles.map (·.environment)).dedup,
    cats_battle_style := (profiles.map (·.battle_style)).dedup,
    cats_core_strength := (profiles.map (·.core_strength)).dedup,
    cats_personality := (profiles.map (·.personality)).dedup }

/-- The trained classifier.  `labels` are the classes seen at fit time
(`classes_`); `choose` is the opaque fitted decision function, modelled as an
arbitrary selector among the labels. -/
structure Predictor where
  labels : List String
  choose : List Nat → Nat

/-- `model.predict` on one encoded row: returns one of the fitted class
labels (selected by the opaque decision function). -/
def Predictor.predict (m : Predictor) (x : List Nat) : String :=
  m.labels.getD (m.choose x % m.labels.length) ""

/-- `encoder.get_feature_names_out(features)`: the trained column names, in
feature order. -/
def featureNames (enc : Encoder) : List String :=
  enc.cats_environment.map (fun v => "environment_" ++ v)
    ++ enc.cats_battle_style.map (fun v => "battle_style_" ++ v)
    ++ enc.cats_core_strength.map (fun v => "core_strength_" ++ v)
    ++ enc.cats_personality.map (fun v => "personality_" ++ v)

/-- `get_and_train_model` (source lines 43-54): query the profile table;
below 20 rows return `None`; otherwise fit the encoder and the forest and
return `(model, encoder, trained_columns)`.  The library fitting procedure is
the opaque parameter `fit`. -/
def get_and_train_model (fit : List ProfileRow → List Nat → Nat)
    (profiles : List ProfileRow) : Option (Predictor × Encoder × List String) :=
  if profiles.length < 20 then none
  else
    let enc := fitEncoder profiles
    some ({ labels := (profiles.map (·.pokemon_name)).dedup, choose := fit profiles }, enc,
      featureNames enc)

/-- The global `random` module state: an entropy stream and the position of
the next value to be consumed. -/
structure RandState where
  stream : Nat → Nat
  pos : Nat

/-- Consume one raw entropy value. -/
def drawNat (r : RandState) : Nat × RandState :=
  (r.stream r.pos, { r with pos := r.pos + 1 })

/-- `random.randint(lo, hi)`: one draw, mapped into `lo..hi` inclusive. -/
def randint (lo hi : Nat) (r : RandState) : Nat × RandState :=
  let d := drawNat r
  (lo + d.1 % (hi - lo + 1), d.2)

/-- `pokemon_data_df[pokemon_data_df['is_legendary'] | pokemon_data_df['is_mythical']]`. -/
def legendaryPool (catalog : List CatalogEntry) : List CatalogEntry :=
  catalog.filter (fun e => e.is_legendary || e.is_mythical)

/-- `legendary_pool.sample(n=1)['pokemon_name'].iloc[0]`: one draw selecting a
uniformly random row of the pool; its name is returned. -/
def sampleOneName (pool : List CatalogEntry) (r : RandState) : String × RandState :=
  let d := drawNat r
  (((pool.get? (d.1 % pool.length)).map CatalogEntry.pokemon_name).getD "", d.2)

/-- The result of one quiz submission: the final predicted name, the
`is_legendary_encounter` flag, and the `is_shiny` flag. -/
structure PredictionResult where
  outcome_name : String
  rarity_override : Bool
  rare_variant : Bool
  deriving DecidableEq

/-- Source lines 115-122: the destiny/rarity override.  When the destiny box
is checked and the two "mystical" answers are given, draw `randint(1, 20)`;
on 1, if the legendary/mythical pool is non-empty, replace the prediction
with a random pool member and set the flag. -/
def overrideStep (catalog : List CatalogEntry) (pred : String) (a : QuizAnswers)
    (destiny : Bool) (r : RandState) : String × Bool × RandState :=
  if destiny = true ∧ a.personality = "Mysterious & Cunning" ∧ a.core_strength = "Raw Power" then
    let d := randint 1 20 r
    if d.1 = 1 then
      let pool := legendaryPool catalog
      if pool = [] then (pred, false, d.2)
      else
        let s := sampleOneName pool d.2
        (s.1, true, s.2)
    else (pred, false, d.2)
  else (pred, false, r)

/-- Source lines 110-124 (the `if submitted:` block up to `is_shiny`): encode
the answers, predict, apply the override, then roll `randint(1, 100) == 1`
for the shiny variant. -/
def runQuizSubmission (catalog : List CatalogEntry) (m : Predictor) (enc : Encoder)
    (a : QuizAnswers) (destiny : Bool) (r : RandState) : PredictionResult × RandState :=
  let prediction := m.predict (encode enc a)
  let o := overrideStep catalog prediction a destiny r
  let d2 := randint 1 100 o.2.2
  ({ outcome_name := o.1, rarity_override := o.2.1, rare_variant := d2.1 == 1 }, d2.2)

/-- `POKEMON_INFO.get(name)`: catalog lookup by name. -/
def catalogLookup (catalog : List CatalogEntry) (name : String) : Option CatalogEntry :=
  catalog.find? (fun e => e.pokemon_name == name)

/-- Source line 126: `img_to_display = pokemon_info['shiny_img_url'] if is_shiny
else pokemon_info['img_url']`. -/
def imgToDisplay (info : CatalogEntry) (is_shiny : Bool) : String :=
  if is_shiny then info.shiny_img_url else info.img_url

/-- Outcome of one quiz interaction: either the "still gathering data"
warning (model is `None`, source line 97-98), or a prediction result. -/
inductive DecideResult where
  | notReady : DecideResult
  | ready : PredictionResult → DecideResult
  deriving DecidableEq

/-- The full decision cycle of one quiz interaction: train (or refuse), then
run the submission handler. -/
def decideCycle (fit : List ProfileRow → List Nat → Nat) (catalog : List CatalogEntry)
    (profiles : List ProfileRow) (a : QuizAnswers) (destiny : Bool) (r : RandState) :
    DecideResult × RandState :=
  match get_and_train_model fit profiles with
  | none => (DecideResult.notReady, r)
  | some (m, enc, _) =>
    let res := runQuizSubmission catalog m enc a destiny r
    (DecideResult.ready res.1, res.2)

/-- The `st.session_state` fields the feedback flow uses. -/
structure SessionState where
  feedback_given : Bool
  last_input : Option QuizAnswers
  last_prediction : Option String
  deriving DecidableEq

/-- The user's judgment: which of the three feedback buttons was pressed. -/
inductive Judgment where
  | matched : Judgment
  | close : Judgment
  | wrong : Judgment
  deriving DecidableEq

/-- Source lines 158-160: all three feedback buttons run the identical
handler `st.session_state.feedback_given = True`; the judgment itself is
discarded. -/
def clickFeedbackButton (_j : Judgment) (st : SessionState) : SessionState :=
  { st with feedback_given := true }

/-- Source lines 155-156: after rendering a result the handler stores
`last_input` (the answers) and `last_prediction` (the final, possibly
overridden, outcome name) in the session. -/
def sessionAfterSubmit (a : QuizAnswers) (res : PredictionResult) (st : SessionState) :
    SessionState :=
  { st with last_input := some a, last_prediction := some res.outcome_name }

/-- Source lines 171-172: `profile_data = last_input; profile_data['pokemon_name']
= last_prediction` — the row inserted into `pokemon_profiles`. -/
def mkFeedbackRow (a : QuizAnswers) (predictionName : String) : ProfileRow :=
  { environment := a.environment, battle_style := a.battle_style,
    core_strength := a.core_strength, personality := a.personality,
    pokemon_name := predictionName }

/-- How one run of the module-level feedback block ends: either it completes
(row committed, session keys deleted), or an exception raised by the sink (or
by a missing session key) propagates uncaught past the app code — the block
has no `try`/`except` — leaving the table and the session as they were. -/
inductive FeedbackOutcome where
  | completed : List ProfileRow → SessionState → FeedbackOutcome
  | uncaughtException : String → List ProfileRow → SessionState → FeedbackOutcome
  deriving DecidableEq

/-- Source lines 170-180: when `feedback_given` is set, insert the row built
from `last_input` and `last_prediction` and clear the three session keys.
`sinkError = some e` models the database connection raising `e` during the
insert; nothing in the block catches it. -/
def feedbackStep (sinkError : Option String) (db : List ProfileRow) (st : SessionState) :
    FeedbackOutcome :=
  if st.feedback_given then
    match st.last_input, st.last_prediction with
    | some a, some p =>
      match sinkError with
      | some e => FeedbackOutcome.uncaughtException e db st
      | none =>
        FeedbackOutcome.completed (db ++ [mkFeedbackRow a p])
          { feedback_given := false, last_input := none, last_prediction := none }
    | _, _ => FeedbackOutcome.uncaughtException "KeyError" db st
  else FeedbackOutcome.completed db st

/-- True when the run of the feedback block ended with an exception escaping
to the framework (the UI boundary). -/
def FeedbackOutcome.escaped : FeedbackOutcome → Bool
  | FeedbackOutcome.completed _ _ => false
  | FeedbackOutcome.uncaughtException _ _ _ => true

/-- Overwrite one position of the entropy stream, leaving the cursor alone. -/
def setAt (r : RandState) (i v : Nat) : RandState :=
  { r with stream := fun j => if j = i then v else r.stream j }

/-! ### Helper lemmas -/

theorem oneHot_of_not_mem (cats : List String) (v : String) (h : v ∉ cats) :
    oneHot cats v = List.replicate cats.length 0 := by
  induction cats with
  | nil => rfl
  | cons c cs ih =>
    simp only [List.mem_cons, not_or] at h
    simp only [oneHot, List.map_cons, List.length_cons, List.replicate_succ] at *
    rw [if_neg (fun hc => h.1 hc.symm)]
    exact congrArg _ (ih h.2)

theorem sampleOneName_mem (pool : List CatalogEntry) (r : RandState) (h : pool ≠ []) :
    (sampleOneName pool r).1 ∈ pool.map CatalogEntry.pokemon_name := by
  have hlen : 0 < pool.length := List.length_pos.mpr h
  have hidx : (drawNat r).1 % pool.length < pool.length := Nat.mod_lt _ hlen
  simp only [sampleOneName]
  rw [List.get?_eq_get hidx]
  simpa using List.mem_map_of_mem CatalogEntry.pokemon_name (List.get_mem pool _ hidx)

theorem predict_mem (m : Predictor) (x : List Nat) (h : m.labels ≠ []) :
    m.predict x ∈ m.labels := by
  have hlen : 0 < m.labels.length := List.length_pos.mpr h
  have hidx : m.choose x % m.labels.length < m.labels.length := Nat.mod_lt _ hlen
  simp only [Predictor.predict, List.getD_eq_get?]
  rw [List.get?_eq_get hidx]
  simpa using List.get_mem m.labels _ hidx

/-! ### Shared concrete data for witnesses -/

def wEntryPikachu : CatalogEntry :=
  { pokemon_name := "Pikachu", environment := "Forests & Jungles",
    battle_style := "Quick & Agile", core_strength := "Speed & Evasion",
    personality := "Energetic & Free-Spirited", type1 := "electric",
    hp := 35, attack := 55, defense := 40, pokedex_entry := "Stores electricity.",
    img_url := "pikachu.png", shiny_img_url := "pikachu_shiny.png",
    is_legendary := false, is_mythical := false }

def wEntryMewtwo : CatalogEntry :=
  { pokemon_name := "Mewtwo", environment := "Mysterious Places",
    battle_style := "Strategic & Long-Range", core_strength := "Raw Power",
    personality := "Mysterious & Cunning", type1 := "psychic",
    hp := 106, attack := 110, defense := 90, pokedex_entry := "Created by science.",
    img_url := "mewtwo.png", shiny_img_url := "mewtwo_shiny.png",
    is_legendary := true, is_mythical := false }

def wCatalog : List CatalogEntry := [wEntryPikachu, wEntryMewtwo]

def wRow : ProfileRow := toProfileRow wEntryPikachu

def wProfiles : List ProfileRow := List.replicate 20 wRow

def wAnswersMystic : QuizAnswers :=
  { environment := "Mysterious Places", battle_style := "Strategic & Long-Range",
    core_strength := "Raw Power", personality := "Mysterious & Cunning" }

def wFit : List ProfileRow → List Nat → Nat := fun _ _ => 0

def wStreamZero : RandState := { stream := fun _ => 0, pos := 0 }

/-! ### C3: readiness threshold -/

/-- C3: the decision cycle returns `NotReady` exactly when the stored
training set has fewer than 20 rows, and in that state it performs nothing
further (the result carries no prediction and the random state is untouched). -/
theorem c3_not_ready_iff_below_threshold (fit : List ProfileRow → List Nat → Nat)
    (catalog : List CatalogEntry) (profiles : List ProfileRow) (a : QuizAnswers)
    (destiny : Bool) (r : RandState) :
    ((decideCycle fit catalog profiles a destiny r).1 = DecideResult.notReady ↔
      profiles.length < 20) ∧
    (profiles.length < 20 →
      decideCycle fit catalog profiles a destiny r = (DecideResult.notReady, r)) := by
  constructor
  · constructor
    · intro h
      by_contra hlen
      simp [decideCycle, get_and_train_model, hlen] at h
    · intro hlen
      simp [decideCycle, get_and_train_model, hlen]
  · intro hlen
    simp [decideCycle, get_and_train_model, hlen]

/-- C3 witness: with exactly 19 feedback rows the interaction is `NotReady`. -/
theorem c3_witness :
    (List.replicate 19 wRow).length < 20 ∧
    (decideCycle wFit wCatalog (List.replicate 19 wRow) wAnswersMystic true wStreamZero).1 =
      DecideResult.notReady :=
  ⟨by decide,
    (c3_not_ready_iff_below_threshold wFit wCatalog (List.replicate 19 wRow) wAnswersMystic
      true wStreamZero).1.mpr (by decide)⟩

/-! ### C10: idempotent initialization -/

/-- C10: `init_db` seeds the profile table from the catalog only when the
table is empty, a second run inserts no rows, and existing rows are never
modified or deleted (the result always extends the table on the right). -/
theorem c10_init_db_idempotent (initial_df : List CatalogEntry) (db : List ProfileRow) :
    init_db initial_df (init_db initial_df db) = init_db initial_df db ∧
    (db ≠ [] → init_db initial_df db = db) ∧
    (∃ tail, init_db initial_df db = db ++ tail) := by
  by_cases hdb : db = []
  · by_cases hdf : initial_df = []
    · subst hdb; subst hdf
      exact ⟨rfl, fun hne => absurd rfl hne, ⟨[], rfl⟩⟩
    · subst hdb
      have h1 : init_db initial_df [] = initial_df.map toProfileRow := by
        simp [init_db, hdf]
      have h2 : (initial_df.map toProfileRow) ≠ [] := by
        simpa using hdf
      refine ⟨?_, fun hne => absurd rfl hne, ⟨initial_df.map toProfileRow, by simp [h1]⟩⟩
      rw [h1]
      simp [init_db, List.length_eq_zero, h2]
  · have h1 : init_db initial_df db = db := by
      simp [init_db, List.length_eq_zero, hdb]
    exact ⟨by rw [h1, h1], fun _ => h1, ⟨[], by simp [h1]⟩⟩

/-- C10 witness: a non-empty table is left exactly as it is. -/
theorem c10_witness :
    ([wRow] ≠ []) ∧ init_db wCatalog [wRow] = [wRow] :=
  ⟨by decide, (c10_init_db_idempotent wCatalog [wRow]).2.1 (by decide)⟩

/-! ### C6: unknown-category tolerance of the encoder -/

/-- C6: a categorical answer value unseen at fit time is encoded, without any
failure, as the all-zero indicator block for its field — the same vector as
when that field contributes nothing (`handle_unknown='ignore'`). -/
theorem c6_unknown_category_ignored (enc : Encoder) (a : QuizAnswers) :
    (a.environment ∉ enc.cats_environment →
      encode enc a = List.replicate enc.cats_environment.length 0
        ++ oneHot enc.cats_battle_style a.battle_style
        ++ oneHot enc.cats_core_strength a.core_strength
        ++ oneHot enc.cats_personality a.personality) ∧
    (a.battle_style ∉ enc.cats_battle_style →
      encode enc a = oneHot enc.cats_environment a.environment
        ++ List.replicate enc.cats_battle_style.length 0
        ++ oneHot enc.cats_core_strength a.core_strength
        ++ oneHot enc.cats_personality a.personality) ∧
    (a.core_strength ∉ enc.cats_core_strength →
      encode enc a = oneHot enc.cats_environment a.environment
        ++ oneHot enc.cats_battle_style a.battle_style
        ++ List.replicate enc.cats_core_strength.length 0
        ++ oneHot enc.cats_personality a.personality) ∧
    (a.personality ∉ enc.cats_personality →
      encode enc a = oneHot enc.cats_environment a.environment
        ++ oneHot enc.cats_battle_style a.battle_style
        ++ oneHot enc.cats_core_strength a.core_strength
        ++ List.replicate enc.cats_personality.length 0) := by
  refine ⟨fun h => ?_, fun h => ?_, fun h => ?_, fun h => ?_⟩ <;>
    simp [encode, oneHot_of_not_mem _ _ h]

def wEncoder : Encoder := fitEncoder wProfiles

/-- C6 witness: the mystic answers' environment value was never seen in the
training profiles, and its indicator block encodes to zeros. -/
theorem c6_witness :
    wAnswersMystic.environment ∉ wEncoder.cats_environment ∧
    encode wEncoder wAnswersMystic = List.replicate wEncoder.cats_environment.length 0
      ++ oneHot wEncoder.cats_battle_style wAnswersMystic.battle_style
      ++ oneHot wEncoder.cats_core_strength wAnswersMystic.core_strength
      ++ oneHot wEncoder.cats_personality wAnswersMystic.personality :=
  ⟨by decide, (c6_unknown_category_ignored wEncoder wAnswersMystic).1 (by decide)⟩

/-! ### Characterization of the override step -/

theorem overrideStep_spec (catalog : List CatalogEntry) (pred : String) (a : QuizAnswers)
    (destiny : Bool) (r : RandState) :
    ((overrideStep catalog pred a destiny r).2.1 = true ↔
      (destiny = true ∧ a.personality = "Mysterious & Cunning" ∧
        a.core_strength = "Raw Power" ∧ (randint 1 20 r).1 = 1 ∧
        legendaryPool catalog ≠ [])) ∧
    ((overrideStep catalog pred a destiny r).2.1 = true →
      (overrideStep catalog pred a destiny r).1 =
        (sampleOneName (legendaryPool catalog) (randint 1 20 r).2).1) ∧
    ((overrideStep catalog pred a destiny r).2.1 = false →
      (overrideStep catalog pred a destiny r).1 = pred) := by
  by_cases hc : destiny = true ∧ a.personality = "Mysterious & Cunning" ∧
      a.core_strength = "Raw Power"
  · by_cases hd : (randint 1 20 r).1 = 1
    · by_cases hp : legendaryPool catalog = []
      · refine ⟨?_, ?_, ?_⟩ <;> simp [overrideStep, hc, hd, hp]
      · refine ⟨?_, ?_, ?_⟩ <;> simp [overrideStep, hc.1, hc.2.1, hc.2.2, hd, hp]
    · refine ⟨?_, ?_, ?_⟩ <;> simp [overrideStep, hc, hd] <;> tauto
  · refine ⟨?_, ?_, ?_⟩ <;> simp [overrideStep, hc] <;> tauto

theorem runQuizSubmission_proj (catalog : List CatalogEntry) (m : Predictor) (enc : Encoder)
    (a : QuizAnswers) (destiny : Bool) (r : RandState) :
    (runQuizSubmission catalog m enc a destiny r).1.outcome_name =
      (overrideStep catalog (m.predict (encode enc a)) a destiny r).1 ∧
    (runQuizSubmission catalog m enc a destiny r).1.rarity_override =
      (overrideStep catalog (m.predict (encode enc a)) a destiny r).2.1 ∧
    (runQuizSubmission catalog m enc a destiny r).1.rare_variant =
      ((randint 1 100 (overrideStep catalog (m.predict (encode enc a)) a destiny r).2.2).1
        == 1) :=
  ⟨rfl, rfl, rfl⟩

/-! ### C2: the rarity-override rule -/

/-- C2: the override flag is set iff the destiny box, the two fixed
"mystical" answers, the 1-in-20 draw, and a non-empty legendary/mythical
pool all line up; on override the outcome is the uniformly sampled pool
member, otherwise the outcome is exactly the raw classifier prediction. -/
theorem c2_override_iff (catalog : List CatalogEntry) (m : Predictor) (enc : Encoder)
    (a : QuizAnswers) (destiny : Bool) (r : RandState) :
    ((runQuizSubmission catalog m enc a destiny r).1.rarity_override = true ↔
      (destiny = true ∧ a.personality = "Mysterious & Cunning" ∧
        a.core_strength = "Raw Power" ∧ (randint 1 20 r).1 = 1 ∧
        legendaryPool catalog ≠ [])) ∧
    ((runQuizSubmission catalog m enc a destiny r).1.rarity_override = true →
      (runQuizSubmission catalog m enc a destiny r).1.outcome_name =
        (sampleOneName (legendaryPool catalog) (randint 1 20 r).2).1 ∧
      (runQuizSubmission catalog m enc a destiny r).1.outcome_name ∈
        (legendaryPool catalog).map CatalogEntry.pokemon_name) ∧
    ((runQuizSubmission catalog m enc a destiny r).1.rarity_override = false →
      (runQuizSubmission catalog m enc a destiny r).1.outcome_name =
        m.predict (encode enc a)) := by
  obtain ⟨ho, hf, _⟩ := runQuizSubmission_proj catalog m enc a destiny r
  obtain ⟨hiff, hon, hraw⟩ :=
    overrideStep_spec catalog (m.predict (encode enc a)) a destiny r
  refine ⟨by rw [hf]; exact hiff, fun h => ?_, fun h => ?_⟩
  · have hflag : (overrideStep catalog (m.predict (encode enc a)) a destiny r).2.1 = true := by
      rw [← hf]; exact h
    have hpool : legendaryPool catalog ≠ [] := (hiff.mp hflag).2.2.2.2
    refine ⟨by rw [ho]; exact hon hflag, ?_⟩
    rw [ho, hon hflag]
    exact sampleOneName_mem _ _ hpool
  · have hflag : (overrideStep catalog (m.predict (encode enc a)) a destiny r).2.1 = false := by
      rw [← hf]; exact h
    rw [ho]; exact hraw hflag

def wModel : Predictor :=
  { labels := (wProfiles.map (·.pokemon_name)).dedup, choose := wFit wProfiles }

/-- C2 witness: destiny set, mystical answers, the all-zero entropy stream
forces the 1-in-20 draw to hit 1, and the pool holds Mewtwo: the override
fires and the outcome is in the legendary/mythical subset. -/
theorem c2_witness :
    (true = true ∧ wAnswersMystic.personality = "Mysterious & Cunning" ∧
      wAnswersMystic.core_strength = "Raw Power" ∧ (randint 1 20 wStreamZero).1 = 1 ∧
      legendaryPool wCatalog ≠ []) ∧
    (runQuizSubmission wCatalog wModel wEncoder wAnswersMystic true wStreamZero).1.rarity_override
      = true ∧
    (runQuizSubmission wCatalog wModel wEncoder wAnswersMystic true wStreamZero).1.outcome_name
      ∈ (legendaryPool wCatalog).map CatalogEntry.pokemon_name := by
  have h := c2_override_iff wCatalog wModel wEncoder wAnswersMystic true wStreamZero
  have hcond : (true = true ∧ wAnswersMystic.personality = "Mysterious & Cunning" ∧
      wAnswersMystic.core_strength = "Raw Power" ∧ (randint 1 20 wStreamZero).1 = 1 ∧
      legendaryPool wCatalog ≠ []) := by
    refine ⟨rfl, rfl, rfl, ?_, by decide⟩
    show 1 + wStreamZero.stream 0 % 20 = 1
    rfl
  have hflag := h.1.mpr hcond
  exact ⟨hcond, hflag, (h.2.1 hflag).2⟩

/-! ### C1: every outcome resolves in the catalog -/

theorem catalogLookup_of_mem (catalog : List CatalogEntry) (name : String)
    (h : name ∈ catalog.map CatalogEntry.pokemon_name) :
    ∃ e ∈ catalog, catalogLookup catalog name = some e ∧ e.pokemon_name = name := by
  have hsome : (catalog.find? (fun e => e.pokemon_name == name)).isSome := by
    rw [List.find?_isSome]
    obtain ⟨e, he, hname⟩ := List.mem_map.mp h
    exact ⟨e, he, by simp [hname]⟩
  obtain ⟨e, he⟩ := Option.isSome_iff_exists.mp hsome
  exact ⟨e, List.mem_of_find?_eq_some he, he, by simpa using List.find?_some he⟩

theorem runQuiz_outcome_cases (catalog : List CatalogEntry) (m : Predictor) (enc : Encoder)
    (a : QuizAnswers) (destiny : Bool) (r : RandState) :
    ((runQuizSubmission catalog m enc a destiny r).1.rarity_override = true ∧
      (runQuizSubmission catalog m enc a destiny r).1.outcome_name ∈
        (legendaryPool catalog).map CatalogEntry.pokemon_name) ∨
    ((runQuizSubmission catalog m enc a destiny r).1.rarity_override = false ∧
      (runQuizSubmission catalog m enc a destiny r).1.outcome_name =
        m.predict (encode enc a)) := by
  obtain ⟨ho, hf, _⟩ := runQuizSubmission_proj catalog m enc a destiny r
  obtain ⟨hiff, hon, hraw⟩ := overrideStep_spec catalog (m.predict (encode enc a)) a destiny r
  by_cases hflag : (overrideStep catalog (m.predict (encode enc a)) a destiny r).2.1 = true
  · left
    refine ⟨hf.trans hflag, ?_⟩
    rw [ho, hon hflag]
    exact sampleOneName_mem _ _ (hiff.mp hflag).2.2.2.2
  · have hflag' : (overrideStep catalog (m.predict (encode enc a)) a destiny r).2.1 = false := by
      simpa using hflag
    right
    exact ⟨hf.trans hflag', by rw [ho]; exact hraw hflag'⟩

/-- C1: assuming the system invariant that every profile-table row names a
catalog entry and catalog names are unique, every result of a ready decision
cycle has an `outcome_name` that resolves in the catalog, and on a rarity
override the resolved entry is flagged legendary or mythical. -/
theorem c1_outcome_resolves_in_catalog (fit : List ProfileRow → List Nat → Nat)
    (catalog : List CatalogEntry) (profiles : List ProfileRow) (a : QuizAnswers)
    (destiny : Bool) (r : RandState) (res : PredictionResult)
    (hnames : ∀ row ∈ profiles, row.pokemon_name ∈ catalog.map CatalogEntry.pokemon_name)
    (hnodup : (catalog.map CatalogEntry.pokemon_name).Nodup)
    (hready : (decideCycle fit catalog profiles a destiny r).1 = DecideResult.ready res) :
    ∃ e ∈ catalog, catalogLookup catalog res.outcome_name = some e ∧
      (res.rarity_override = true → (e.is_legendary || e.is_mythical) = true) := by
  by_cases hlen : profiles.length < 20
  · exfalso
    simp [decideCycle, get_and_train_model, hlen] at hready
  · simp only [decideCycle, get_and_train_model, hlen, if_false, DecideResult.ready.injEq] at hready
    subst hready
    have hne : profiles ≠ [] := by
      intro hnil
      exact hlen (by simp [hnil])
    rcases runQuiz_outcome_cases catalog
        { labels := (profiles.map (·.pokemon_name)).dedup, choose := fit profiles }
        (fitEncoder profiles) a destiny r with ⟨hflag, hmem⟩ | ⟨hflag, hout⟩
    · obtain ⟨p, hp, hpname⟩ := List.mem_map.mp hmem
      obtain ⟨hpcat, hpflags⟩ := List.mem_filter.mp hp
      obtain ⟨e, hecat, hlook, hename⟩ := catalogLookup_of_mem catalog _
        (hpname ▸ List.mem_map_of_mem CatalogEntry.pokemon_name hpcat)
      refine ⟨e, hecat, hlook, fun _ => ?_⟩
      have : e = p :=
        List.inj_on_of_nodup_map hnodup hecat hpcat (hename.trans hpname.symm)
      rw [this]
      exact hpflags
    · have hlabels : (profiles.map (·.pokemon_name)).dedup ≠ [] := by
        intro hnil
        exact hne (List.map_eq_nil_iff.mp ((List.dedup_eq_nil _).mp hnil))
      have hmem : (runQuizSubmission catalog
          { labels := (profiles.map (·.pokemon_name)).dedup, choose := fit profiles }
          (fitEncoder profiles) a destiny r).1.outcome_name ∈
          (profiles.map (·.pokemon_name)).dedup := by
        rw [hout]
        exact predict_mem _ _ hlabels
      obtain ⟨row, hrow, hrowname⟩ := List.mem_map.mp (List.mem_dedup.mp hmem)
      obtain ⟨e, hecat, hlook, _⟩ := catalogLookup_of_mem catalog _
        (hrowname ▸ hnames row hrow)
      exact ⟨e, hecat, hlook, fun htrue => absurd (hflag ▸ htrue) (by simp)⟩

/-- C1 witness: 20 Pikachu profile rows (names in the catalog, catalog names
unique); the mystic destiny submission on the zero stream yields the overridden
result `Mewtwo`, which resolves in the catalog to a legendary entry. -/
theorem c1_witness :
    (∀ row ∈ wProfiles, row.pokemon_name ∈ wCatalog.map CatalogEntry.pokemon_name) ∧
    (wCatalog.map CatalogEntry.pokemon_name).Nodup ∧
    (decideCycle wFit wCatalog wProfiles wAnswersMystic true wStreamZero).1 =
      DecideResult.ready ⟨"Mewtwo", true, true⟩ ∧
    ∃ e ∈ wCatalog,
      catalogLookup wCatalog (PredictionResult.mk "Mewtwo" true true).outcome_name = some e ∧
      ((PredictionResult.mk "Mewtwo" true true).rarity_override = true →
        (e.is_legendary || e.is_mythical) = true) := by
  have h1 : ∀ row ∈ wProfiles, row.pokemon_name ∈ wCatalog.map CatalogEntry.pokemon_name := by
    decide
  have h2 : (wCatalog.map CatalogEntry.pokemon_name).Nodup := by decide
  have h3 : (decideCycle wFit wCatalog wProfiles wAnswersMystic true wStreamZero).1 =
      DecideResult.ready ⟨"Mewtwo", true, true⟩ := by decide
  exact ⟨h1, h2, h3, c1_outcome_resolves_in_catalog wFit wCatalog wProfiles wAnswersMystic
    true wStreamZero _ h1 h2 h3⟩

/-! ### C4: what the feedback write persists -/

def wSessionPending : SessionState :=
  { feedback_given := false, last_input := some wAnswersMystic,
    last_prediction := some "Mewtwo" }

/-- C4 counterexample: pressing "perfect match" and pressing "not quite
right" produce the identical persisted table and session — the handler and
the inserted row are the same for all three buttons, so the user judgment is
not part of the stored record (the `pokemon_profiles` schema has no judgment
column). -/
theorem c4_counterexample :
    Judgment.matched ≠ Judgment.wrong ∧
    feedbackStep none [wRow] (clickFeedbackButton Judgment.matched wSessionPending) =
      feedbackStep none [wRow] (clickFeedbackButton Judgment.wrong wSessionPending) :=
  ⟨by decide, rfl⟩

/-- C4 (amended): a successful feedback recording appends exactly one row
holding the quiz answers and the outcome name — no judgment is stored — and
the previously stored rows are untouched (append-only). -/
theorem c4_feedback_append (j : Judgment) (db : List ProfileRow) (st : SessionState)
    (a : QuizAnswers) (p : String)
    (hin : st.last_input = some a) (hpred : st.last_prediction = some p) :
    feedbackStep none db (clickFeedbackButton j st) =
      FeedbackOutcome.completed (db ++ [mkFeedbackRow a p])
        { feedback_given := false, last_input := none, last_prediction := none } ∧
    (mkFeedbackRow a p).environment = a.environment ∧
    (mkFeedbackRow a p).battle_style = a.battle_style ∧
    (mkFeedbackRow a p).core_strength = a.core_strength ∧
    (mkFeedbackRow a p).personality = a.personality ∧
    (mkFeedbackRow a p).pokemon_name = p := by
  refine ⟨?_, rfl, rfl, rfl, rfl, rfl⟩
  simp [feedbackStep, clickFeedbackButton, hin, hpred]

/-- C4 witness: a concrete recording appends the answers plus outcome row. -/
theorem c4_witness :
    wSessionPending.last_input = some wAnswersMystic ∧
    wSessionPending.last_prediction = some "Mewtwo" ∧
    feedbackStep none [wRow] (clickFeedbackButton Judgment.close wSessionPending) =
      FeedbackOutcome.completed ([wRow] ++ [mkFeedbackRow wAnswersMystic "Mewtwo"])
        { feedback_given := false, last_input := none, last_prediction := none } :=
  ⟨rfl, rfl,
    (c4_feedback_append Judgment.close [wRow] wSessionPending wAnswersMystic "Mewtwo"
      rfl rfl).1⟩

/-! ### C5: sink failure behaviour -/

def wSessionGiven : SessionState :=
  { feedback_given := true, last_input := some wAnswersMystic,
    last_prediction := some "Mewtwo" }

/-- C5 counterexample: when the sink raises a connectivity error, the run of
the feedback block ends with the exception escaping past the app code to the
framework — there is no handler turning it into a failure result. -/
theorem c5_counterexample :
    feedbackStep (some "OperationalError: unable to open database file") [wRow]
        wSessionGiven =
      FeedbackOutcome.uncaughtException "OperationalError: unable to open database file"
        [wRow] wSessionGiven ∧
    (feedbackStep (some "OperationalError: unable to open database file") [wRow]
        wSessionGiven).escaped = true :=
  ⟨rfl, rfl⟩

/-- C5 (amended): on a sink connectivity error the exception propagates
uncaught across the UI boundary, but the table and the session — including
the prior prediction, which stays displayable — are unchanged, and
`feedback_given` is still set, so the write is retried on the next rerun. -/
theorem c5_sink_failure_preserves_state (e : String) (db : List ProfileRow)
    (st : SessionState) (a : QuizAnswers) (p : String)
    (hgiven : st.feedback_given = true) (hin : st.last_input = some a)
    (hpred : st.last_prediction = some p) :
    feedbackStep (some e) db st = FeedbackOutcome.uncaughtException e db st ∧
    (feedbackStep (some e) db st).escaped = true ∧
    st.last_prediction = some p ∧ st.feedback_given = true := by
  refine ⟨?_, ?_, hpred, hgiven⟩
  · simp [feedbackStep, hgiven, hin, hpred]
  · simp [feedbackStep, hgiven, hin, hpred, FeedbackOutcome.escaped]

/-- C5 witness: a concrete failing write leaves table and session intact. -/
theorem c5_witness :
    wSessionGiven.feedback_given = true ∧
    wSessionGiven.last_input = some wAnswersMystic ∧
    wSessionGiven.last_prediction = some "Mewtwo" ∧
    feedbackStep (some "connection refused") [wRow] wSessionGiven =
      FeedbackOutcome.uncaughtException "connection refused" [wRow] wSessionGiven :=
  ⟨rfl, rfl, rfl,
    (c5_sink_failure_preserves_state "connection refused" [wRow] wSessionGiven
      wAnswersMystic "Mewtwo" rfl rfl rfl).1⟩

/-! ### C9: overridden outcomes enter the training table -/

/-- C9: the session stores the final (possibly overridden) outcome name and
the confirmed feedback write persists exactly that name, so on an override
the legendary/mythical name — the one displayed — is what enters the
profile table used for future retraining. -/
theorem c9_override_outcome_persisted (catalog : List CatalogEntry) (m : Predictor)
    (enc : Encoder) (a : QuizAnswers) (destiny : Bool) (r : RandState) (j : Judgment)
    (db : List ProfileRow) (st : SessionState) :
    feedbackStep none db (clickFeedbackButton j
        (sessionAfterSubmit a (runQuizSubmission catalog m enc a destiny r).1 st)) =
      FeedbackOutcome.completed
        (db ++ [mkFeedbackRow a (runQuizSubmission catalog m enc a destiny r).1.outcome_name])
        { feedback_given := false, last_input := none, last_prediction := none } ∧
    ((runQuizSubmission catalog m enc a destiny r).1.rarity_override = true →
      (runQuizSubmission catalog m enc a destiny r).1.outcome_name ∈
        (legendaryPool catalog).map CatalogEntry.pokemon_name ∧
      mkFeedbackRow a (runQuizSubmission catalog m enc a destiny r).1.outcome_name ∈
        db ++ [mkFeedbackRow a (runQuizSubmission catalog m enc a destiny r).1.outcome_name]) := by
  refine ⟨?_, fun hov => ⟨?_, by simp⟩⟩
  · simp [feedbackStep, clickFeedbackButton, sessionAfterSubmit]
  · rcases runQuiz_outcome_cases catalog m enc a destiny r with ⟨_, hmem⟩ | ⟨hflag, _⟩
    · exact hmem
    · rw [hov] at hflag
      exact absurd hflag (by simp)

/-- C9 witness: a fired override ("Mewtwo") is exactly what the confirmed
feedback write appends to the profile table. -/
theorem c9_witness :
    feedbackStep none [wRow] (clickFeedbackButton Judgment.matched
        (sessionAfterSubmit wAnswersMystic
          (runQuizSubmission wCatalog wModel wEncoder wAnswersMystic true wStreamZero).1
          wSessionPending)) =
      FeedbackOutcome.completed
        ([wRow] ++ [mkFeedbackRow wAnswersMystic
          (runQuizSubmission wCatalog wModel wEncoder wAnswersMystic true
            wStreamZero).1.outcome_name])
        { feedback_given := false, last_input := none, last_prediction := none } ∧
    (runQuizSubmission wCatalog wModel wEncoder wAnswersMystic true
      wStreamZero).1.rarity_override = true ∧
    (runQuizSubmission wCatalog wModel wEncoder wAnswersMystic true
        wStreamZero).1.outcome_name ∈
      (legendaryPool wCatalog).map CatalogEntry.pokemon_name := by
  have h := c9_override_outcome_persisted wCatalog wModel wEncoder wAnswersMystic true
    wStreamZero Judgment.matched [wRow] wSessionPending
  have hov : (runQuizSubmission wCatalog wModel wEncoder wAnswersMystic true
      wStreamZero).1.rarity_override = true := by decide
  exact ⟨h.1, hov, (h.2 hov).1⟩

/-! ### C7: the shiny roll -/

theorem randint_1_100_bounds (r : RandState) :
    1 ≤ (randint 1 100 r).1 ∧ (randint 1 100 r).1 ≤ 100 := by
  have h : r.stream r.pos % 100 < 100 := Nat.mod_lt _ (by omega)
  simp only [randint, drawNat]
  omega

theorem overrideStep_setAt_end (catalog : List CatalogEntry) (pred : String)
    (a : QuizAnswers) (destiny : Bool) (r : RandState) (v : Nat) :
    (overrideStep catalog pred a destiny
        (setAt r (overrideStep catalog pred a destiny r).2.2.pos v)).1 =
      (overrideStep catalog pred a destiny r).1 ∧
    (overrideStep catalog pred a destiny
        (setAt r (overrideStep catalog pred a destiny r).2.2.pos v)).2.1 =
      (overrideStep catalog pred a destiny r).2.1 := by
  by_cases hC : destiny = true ∧ a.personality = "Mysterious & Cunning" ∧
      a.core_strength = "Raw Power"
  · have h01 : ¬ (r.pos = r.pos + 1) := by omega
    have h02 : ¬ (r.pos = r.pos + 2) := by omega
    have h12 : ¬ (r.pos + 1 = r.pos + 2) := by omega
    by_cases hd : 1 + r.stream r.pos % 20 = 1
    · by_cases hp : legendaryPool catalog = []
      · simp [overrideStep, randint, drawNat, setAt, hC, hd, hp, h01]
      · simp [overrideStep, randint, drawNat, sampleOneName, setAt, hC, hd, hp, h02, h12]
    · simp [overrideStep, randint, drawNat, setAt, hC, hd, h01]
  · simp [overrideStep, hC]

/-- C7: after the override step a second, separate `randint(1, 100)` draw is
consumed; the rare-variant flag is set exactly when it lands on 1 and the
draw lies in 1..100; overwriting the entropy the shiny roll consumes changes
neither the outcome name nor the override flag; and the flag selects only
which of the two image assets is displayed. -/
theorem c7_rare_variant_roll (catalog : List CatalogEntry) (m : Predictor) (enc : Encoder)
    (a : QuizAnswers) (destiny : Bool) (r : RandState) :
    ((runQuizSubmission catalog m enc a destiny r).1.rare_variant = true ↔
      (randint 1 100
        (overrideStep catalog (m.predict (encode enc a)) a destiny r).2.2).1 = 1) ∧
    (1 ≤ (randint 1 100
        (overrideStep catalog (m.predict (encode enc a)) a destiny r).2.2).1 ∧
      (randint 1 100
        (overrideStep catalog (m.predict (encode enc a)) a destiny r).2.2).1 ≤ 100) ∧
    (∀ v : Nat,
      (runQuizSubmission catalog m enc a destiny
          (setAt r (overrideStep catalog (m.predict (encode enc a)) a destiny
            r).2.2.pos v)).1.outcome_name =
        (runQuizSubmission catalog m enc a destiny r).1.outcome_name ∧
      (runQuizSubmission catalog m enc a destiny
          (setAt r (overrideStep catalog (m.predict (encode enc a)) a destiny
            r).2.2.pos v)).1.rarity_override =
        (runQuizSubmission catalog m enc a destiny r).1.rarity_override) ∧
    (∀ info : CatalogEntry,
      imgToDisplay info true = info.shiny_img_url ∧
      imgToDisplay info false = info.img_url) := by
  refine ⟨?_, randint_1_100_bounds _, fun v => ?_, fun info => ⟨rfl, rfl⟩⟩
  · rw [(runQuizSubmission_proj catalog m enc a destiny r).2.2]
    exact beq_iff_eq
  · obtain ⟨hn, hf⟩ := overrideStep_setAt_end catalog (m.predict (encode enc a)) a destiny r v
    exact ⟨hn, hf⟩

/-! ### C8: determinism apart from the seeded draws -/

theorem runQuiz_congr (catalog : List CatalogEntry) (m : Predictor) (enc : Encoder)
    (a : QuizAnswers) (destiny : Bool) (r r' : RandState)
    (hpos : r'.pos = r.pos)
    (hs0 : r'.stream r.pos = r.stream r.pos)
    (hs1 : r'.stream (r.pos + 1) = r.stream (r.pos + 1))
    (hs2 : r'.stream (r.pos + 2) = r.stream (r.pos + 2)) :
    (runQuizSubmission catalog m enc a destiny r').1 =
      (runQuizSubmission catalog m enc a destiny r).1 := by
  by_cases hC : destiny = true ∧ a.personality = "Mysterious & Cunning" ∧
      a.core_strength = "Raw Power"
  · by_cases hd : 1 + r.stream r.pos % 20 = 1
    · by_cases hp : legendaryPool catalog = []
      · simp [runQuizSubmission, overrideStep, randint, drawNat, hC, hd, hp, hpos, hs0, hs1]
      · simp [runQuizSubmission, overrideStep, randint, drawNat, sampleOneName, hC, hd, hp,
          hpos, hs0, hs1, hs2]
    · simp [runQuizSubmission, overrideStep, randint, drawNat, hC, hd, hpos, hs0, hs1]
  · simp [runQuizSubmission, overrideStep, randint, drawNat, hC, hpos, hs0]

/-- C8: with the same catalog and the same profile table (hence the identical
trained artifact and encoder), the same answers and destiny flag, any two
runs whose entropy streams agree at the at-most-three positions the cycle
consumes produce the identical result — in particular two runs from the very
same random state coincide, and every step other than the random draws is
deterministic. -/
theorem c8_deterministic (fit : List ProfileRow → List Nat → Nat)
    (catalog : List CatalogEntry) (profiles : List ProfileRow) (a : QuizAnswers)
    (destiny : Bool) (r r' : RandState)
    (hpos : r'.pos = r.pos)
    (hs0 : r'.stream r.pos = r.stream r.pos)
    (hs1 : r'.stream (r.pos + 1) = r.stream (r.pos + 1))
    (hs2 : r'.stream (r.pos + 2) = r.stream (r.pos + 2)) :
    (decideCycle fit catalog profiles a destiny r').1 =
      (decideCycle fit catalog profiles a destiny r).1 := by
  by_cases hlen : profiles.length < 20
  · simp [decideCycle, get_and_train_model, hlen]
  · simp only [decideCycle, get_and_train_model, hlen, if_false]
    exact congrArg DecideResult.ready
      (runQuiz_congr catalog _ _ a destiny r r' hpos hs0 hs1 hs2)

def wStreamAlt : RandState := { stream := fun j => if j < 3 then 0 else 7, pos := 0 }

/-- C8 witness: two streams agreeing on the three consumed draws but
differing afterwards drive the full cycle to the identical result. -/
theorem c8_witness :
    (wStreamAlt.pos = wStreamZero.pos ∧
      wStreamAlt.stream wStreamZero.pos = wStreamZero.stream wStreamZero.pos ∧
      wStreamAlt.stream (wStreamZero.pos + 1) = wStreamZero.stream (wStreamZero.pos + 1) ∧
      wStreamAlt.stream (wStreamZero.pos + 2) = wStreamZero.stream (wStreamZero.pos + 2)) ∧
    (decideCycle wFit wCatalog wProfiles wAnswersMystic true wStreamAlt).1 =
      (decideCycle wFit wCatalog wProfiles wAnswersMystic true wStreamZero).1 :=
  ⟨⟨rfl, by decide, by decide, by decide⟩,
    c8_deterministic wFit wCatalog wProfiles wAnswersMystic true wStreamZero wStreamAlt
      rfl (by decide) (by decide) (by decide)⟩
